import Mathlib

/-
Verification development for the trading-cursor repository.

Prices, capital and indicator values are embedded as rationals; the
arithmetic of the source is exact on the inputs considered here.
Python int() truncation is modelled by pyInt, pandas NaN cells by
Option, and a raised-and-caught exception by an Option-valued result.
-/

/-- Python int() applied to a float: truncation toward zero. -/
def pyInt (q : ℚ) : ℤ :=
  if 0 ≤ q then ⌊q⌋ else ⌈q⌉

/-! ### Position sizing: Backtester.calculate_position_size (backtest.py 17-76) -/

/-- Steps 1-2 of Backtester.calculate_position_size (backtest.py 20-48): the
risk-based raw size, the 10-percent-of-capital cap, and the 95-percent
available-capital cap, before the minimum-size floor of line 51. -/
def backtest_size_preMin (capital risk_per_trade entry_price stop_loss : ℚ) : ℚ :=
  let risk_amount := capital * risk_per_trade
  let rps₀ := |entry_price - stop_loss|
  let risk_per_share := if rps₀ ≤ 0 then entry_price * 0.01 else rps₀
  let position_size := risk_amount / risk_per_share
  let position_value := position_size * entry_price
  let max_position_value := capital * 0.1
  let position_size₁ :=
    if position_value > max_position_value then max_position_value / entry_price
    else position_size
  let position_value₁ := position_size₁ * entry_price
  if position_value₁ > capital then capital * 0.95 / entry_price else position_size₁

/-- Backtester.calculate_position_size (backtest.py 17-76): the capped size,
floored at the 0.01-share minimum of lines 50-54. -/
def backtest_calculate_position_size (capital risk_per_trade entry_price stop_loss : ℚ) : ℚ :=
  let s := backtest_size_preMin capital risk_per_trade entry_price stop_loss
  if s < 0.01 then 0.01 else s

/-! ### Position sizing: LiveTrader.calculate_position_size (live_trader.py 138-180) -/

/-- Lines 141-168 of live_trader.py: risk-based share count, capped by 95
percent of buying power and by a 10-percent-of-equity allocation, before the
final sanity check of line 171. -/
def live_size_preCheck (equity buying_power risk_per_trade current_price stop_loss : ℚ) : ℤ :=
  let risk_amount := equity * risk_per_trade
  let pd₀ := |current_price - stop_loss|
  let price_difference := if pd₀ < current_price * 0.01 then current_price * 0.02 else pd₀
  let shares := pyInt (risk_amount / price_difference)
  let bp := buying_power * 0.95
  let max_shares_by_capital := pyInt (bp / current_price)
  let final_shares := min shares max_shares_by_capital
  let max_position_value := equity * 0.1
  let max_shares_by_allocation := pyInt (max_position_value / current_price)
  min final_shares max_shares_by_allocation

/-- LiveTrader.calculate_position_size (live_trader.py 138-180): returns 0
when the capped share count is not positive (lines 170-173). -/
def live_calculate_position_size (equity buying_power risk_per_trade current_price stop_loss : ℚ) : ℤ :=
  let f := live_size_preCheck equity buying_power risk_per_trade current_price stop_loss
  if f ≤ 0 then 0 else f

/-- LiveTrader.execute_trade (live_trader.py 182-186): a non-positive
quantity is rejected before any order is submitted. -/
def live_execute_trade_submits (qty : ℤ) : Bool :=
  if qty ≤ 0 then false else true

/-! ### Position sizing: RiskManager.can_open_position (risk_manager.py 10-27) -/

/-- RiskManager.can_open_position: None when the daily drawdown limit is hit
or the risk-based share count is worth less than 1000 dollars; otherwise the
share count int(portfolio_value * RISK_PER_TRADE / risk_per_share), with no
cap proportional to the portfolio value. -/
def risk_can_open_position (daily_pl portfolio_value max_daily_drawdown risk_per_trade
    risk_per_share price : ℚ) : Option ℤ :=
  if daily_pl ≤ -portfolio_value * max_daily_drawdown then none
  else
    let risk_amount := portfolio_value * risk_per_trade
    let max_shares := pyInt (risk_amount / risk_per_share)
    if (max_shares : ℚ) * price < 1000 then none
    else some max_shares

/-! ### ForwardTester position management (forward_test.py 35-113) -/

/-- One row of the data frame built by ForwardTester.get_latest_data, as read
by check_for_signals: raw High/Low/Close plus the MA_10, MA_20, Price_Change
and RSI columns of the last bar (defined there because of the len-20 guard). -/
structure FRow where
  high : ℚ
  low : ℚ
  close : ℚ
  ma10 : ℚ
  ma20 : ℚ
  price_change : ℚ
  rsi : ℚ
deriving DecidableEq

/-- The open-position dictionary entry of ForwardTester (keys entry,
trailing_stop, highest_price, size). -/
structure FPosition where
  entry : ℚ
  trailing_stop : ℚ
  highest_price : ℚ
  size : ℚ
deriving DecidableEq

/-- An exit record appended to the exits list (forward_test.py 54-69). -/
inductive FExit where
  | stop_loss (price : ℚ)
  | trend_exit (price : ℚ)
deriving DecidableEq

/-- The trailing-stop ladder of forward_test.py 75-80: three profit levels,
each raising the stop through max with its candidate, candidates computed
from the latest high (which equals the just-updated highest_price). -/
def forward_ladder (entry trailing_stop high : ℚ) : ℚ :=
  let s₁ := if high ≥ entry * 1.03 then max entry trailing_stop else trailing_stop
  let s₂ := if high ≥ entry * 1.05 then max (high * 0.97) s₁ else s₁
  if high ≥ entry * 1.10 then max (high * 0.95) s₂ else s₂

/-- The per-bar handling of an open position in ForwardTester.check_for_signals
(forward_test.py 50-80): stop-loss exit first, then trend exit, otherwise the
highest-price update and trailing-stop ladder (only when the latest high
exceeds the stored highest price). -/
def forward_manage_position (p : FPosition) (latest : FRow) : Option FExit × FPosition :=
  if latest.low ≤ p.trailing_stop then (some (FExit.stop_loss p.trailing_stop), p)
  else if latest.close < latest.ma20 then (some (FExit.trend_exit latest.close), p)
  else if latest.high > p.highest_price then
    (none, { p with highest_price := latest.high,
                    trailing_stop := forward_ladder p.entry p.trailing_stop latest.high })
  else (none, p)

/-- Repeated per-bar management of a position that stays open across a list
of bars (the position component of forward_manage_position at each bar). -/
def forward_manage_run (p : FPosition) (rows : List FRow) : FPosition :=
  rows.foldl (fun q r => (forward_manage_position q r).2) p

/-- The entry vote of forward_test.py 84-102: the three boolean conditions
and the 2-of-3 threshold; on success the candidate (entry price, stop) is
(latest close, latest close times 0.98). -/
def forward_trend_condition (l : FRow) : Bool :=
  decide (l.close > l.ma10) || decide (l.close > l.ma20)

/-- Pullback condition of forward_test.py 89-92. -/
def forward_pullback_condition (l : FRow) : Bool :=
  decide (|l.close - l.ma10| / l.close < 0.02) || decide (|l.close - l.ma20| / l.close < 0.03)

/-- Momentum condition of forward_test.py 94-97. -/
def forward_momentum_condition (l : FRow) : Bool :=
  decide (l.price_change > -0.02) || decide (l.rsi < 40)

/-- Number of true conditions, forward_test.py 99. -/
def forward_conditions_met (l : FRow) : ℕ :=
  (forward_trend_condition l).toNat + (forward_pullback_condition l).toNat +
    (forward_momentum_condition l).toNat

/-- Entry candidate of forward_test.py 101-103: emitted exactly when at least
two conditions hold; fields (entry_price, stop_loss). -/
def forward_entry_candidate (l : FRow) : Option (ℚ × ℚ) :=
  if 2 ≤ forward_conditions_met l then some (l.close, l.close * 0.98) else none

/-! ### LiveTrader stop recomputation (live_trader.py 253-268) -/

/-- The stop computed by one LiveTrader.manage_positions cycle: the fixed
2-percent stop below entry, then the sorted trailing_stop_levels ladder
(live_trader.py 36-40 and 253-268). Every candidate is computed from the
current price; no highest-seen price is stored anywhere. -/
def live_manage_stop (entry_price current_price : ℚ) : ℚ :=
  let stop₀ := entry_price * (1 - 0.02)
  let stop₁ := if current_price ≥ entry_price * 1.03 then
      (if entry_price > stop₀ then entry_price else stop₀) else stop₀
  let stop₂ := if current_price ≥ entry_price * 1.05 then
      (let ns := current_price * 0.97; if ns > stop₁ then ns else stop₁) else stop₁
  if current_price ≥ entry_price * 1.10 then
      (let ns := current_price * 0.95; if ns > stop₂ then ns else stop₂) else stop₂

/-- The entry decision of LiveTrader.check_entry_conditions (live_trader.py
99-136), on the scalar values read from the latest row (NaN cells already
replaced by 0, 0, 50, 0 as in lines 111-114): all three conditions must hold. -/
def live_check_entry_conditions (current_price ma10 ma20 rsi price_change : ℚ) : Bool :=
  let condition₁ := decide (current_price > ma10) && decide (ma10 > ma20)
  let condition₂ := decide (40 < rsi) && decide (rsi < 70)
  let condition₃ := decide (price_change > 0.3)
  condition₁ && condition₂ && condition₃

/-! ### RSI (indicators.py 11-18, live_trader.py 54-67, rolling helpers) -/

/-- Last n elements of a list (the pandas tail window). -/
def last_n (n : ℕ) (xs : List ℚ) : List ℚ := xs.drop (xs.length - n)

/-- prices.diff() without its leading NaN: consecutive differences. -/
def series_diff (prices : List ℚ) : List ℚ :=
  List.zipWith (fun a b => a - b) prices.tail prices

/-- rolling(window=n).mean() at the last position: NaN (none) when fewer
than n values exist. -/
def rolling_mean_last (n : ℕ) (xs : List ℚ) : Option ℚ :=
  if xs.length < n then none else some ((last_n n xs).sum / (n : ℚ))

/-- Average gain of the last period bar-over-bar differences. -/
def avg_gain_last (prices : List ℚ) (period : ℕ) : Option ℚ :=
  rolling_mean_last period ((series_diff prices).map (fun d => if d > 0 then d else 0))

/-- Average loss of the last period bar-over-bar differences. -/
def avg_loss_last (prices : List ℚ) (period : ℕ) : Option ℚ :=
  rolling_mean_last period ((series_diff prices).map (fun d => if d < 0 then -d else 0))

/-- TechnicalIndicators.add_rsi (indicators.py 11-18) at the last bar.
The source computes rs = gain / loss with no epsilon; in float arithmetic a
zero average loss gives rs = +infinity when the average gain is positive
(so RSI = 100 - 100/(1 + inf) = 100) and rs = NaN when the average gain is
also zero (so RSI is NaN, embedded as none). -/
def ti_add_rsi_last (prices : List ℚ) (period : ℕ) : Option ℚ :=
  match avg_gain_last prices period, avg_loss_last prices period with
  | some g, some l =>
      if l = 0 then (if g = 0 then none else some 100)
      else some (100 - 100 / (1 + g / l))
  | _, _ => none

/-- LiveTrader.calculate_rsi (live_trader.py 54-67) at the last bar: the
denominator substitutes 1e-9 for a zero average loss before dividing. -/
def live_calculate_rsi_last (prices : List ℚ) (period : ℕ) : Option ℚ :=
  match avg_gain_last prices period, avg_loss_last prices period with
  | some g, some l =>
      let l₁ := if l = 0 then 1 / 1000000000 else l
      some (100 - 100 / (1 + g / l₁))
  | _, _ => none

/-! ### ExitStrategy.check_exit_signal (exit.py 22-58) -/

/-- One indicator row as read by ExitStrategy (columns low, high, close,
MACD, MACD_Signal, RSI). -/
structure ERow where
  low : ℚ
  high : ℚ
  close : ℚ
  macd : ℚ
  macd_sig : ℚ
  rsi : ℚ
deriving DecidableEq

/-- The ExitSignal dataclass of exit.py (the symbol label is omitted: the
source stores the data frame index label there). -/
structure ExitSignalRec where
  exit_type : String
  exit_price : ℚ
deriving DecidableEq

/-- ExitStrategy.check_exit_signal (exit.py 22-58) on the latest and previous
rows (the len-2 guard is the callers obligation here): stop-loss first at the
stored stop price, then take-profit, then the technical MACD/RSI exit at the
close. -/
def check_exit_signal (latest prev : ERow) (stop_loss take_profit rsi_overbought : ℚ) :
    Option ExitSignalRec :=
  if latest.low ≤ stop_loss then some ⟨"stop_loss", stop_loss⟩
  else if latest.high ≥ take_profit then some ⟨"take_profit", take_profit⟩
  else if prev.macd > prev.macd_sig ∧ latest.macd < latest.macd_sig ∧
      latest.rsi > rsi_overbought then some ⟨"technical", latest.close⟩
  else none

/-! ### Backtester.run_single_symbol (backtest.py 175-337) -/

/-- One bar of the data frame consumed by the backtest loop: raw scalars plus
the possibly-NaN indicator columns (backtest.py 207-219). -/
structure BBar where
  close : ℚ
  high : ℚ
  low : ℚ
  ma10 : Option ℚ
  ma20 : Option ℚ
  rsi : Option ℚ
deriving DecidableEq

/-- float(x) if not pd.isna(x) else default (backtest.py 217-219). -/
def nan_or (x : Option ℚ) (default : ℚ) : ℚ := x.getD default

/-- The trade dictionary appended to all_trades (backtest.py 275-289); dates
are bar indices here. -/
structure BTrade where
  entry_index : Option ℕ
  exit_index : ℕ
  entry_price : ℚ
  exit_price : ℚ
  position_size : ℚ
  stop_loss : ℚ
  take_profit : ℚ
  exit_reason : String
  profit : ℚ
  profit_pct : ℚ
  capital_after : ℚ
deriving DecidableEq

/-- The mutable loop state of run_single_symbol (backtest.py 188-198), plus
the trade log. -/
structure BState where
  capital : ℚ
  position : Option ℚ
  position_size : ℚ
  trailing_stop : ℚ
  take_profit : ℚ
  trades : ℕ
  wins : ℕ
  losses : ℕ
  total_profit : ℚ
  highest_price : ℚ
  entry_index : Option ℕ
  trade_log : List BTrade
deriving DecidableEq

/-- One iteration of the bar loop of run_single_symbol (backtest.py 204-302):
entry check when flat (price change over 0.3 percent, close above MA_10 above
MA_20; 2-percent fixed stop, 4-percent take profit, risk-based fractional
size); otherwise highest-price tracking and the stop-loss / take-profit exits,
with the stop exit filling exactly at the stored trailing_stop. -/
def backtest_step (risk_per_trade : ℚ) (s : BState) (input : ℕ × BBar × BBar) : BState :=
  let i := input.1
  let bar := input.2.1
  let prevBar := input.2.2
  let current_price := bar.close
  let current_high := bar.high
  let current_low := bar.low
  let prev_price := prevBar.close
  let price_change := (current_price - prev_price) / prev_price * 100
  let ma10 := nan_or bar.ma10 0
  let ma20 := nan_or bar.ma20 0
  match s.position with
  | none =>
    if price_change > 0.3 ∧ current_price > ma10 ∧ ma10 > ma20 then
      let position := current_price
      let risk_amount := s.capital * risk_per_trade
      let stop_loss_price := position * (1 - 2.0 / 100)
      let size := risk_amount / (position - stop_loss_price)
      { s with position := some position, position_size := size,
               trailing_stop := stop_loss_price, take_profit := position * 1.04,
               trades := s.trades + 1, entry_index := some i }
    else s
  | some position =>
    let s₁ := if current_high > s.highest_price then
        { s with highest_price := current_high } else s
    let exitHit : Option (ℚ × String) :=
      if current_low ≤ s.trailing_stop then some (s.trailing_stop, "Stop Loss")
      else if current_high ≥ s.take_profit then some (s.take_profit, "Take Profit")
      else none
    match exitHit with
    | none => s₁
    | some (exit_price, exit_reason) =>
      let trade_profit := (exit_price - position) * s.position_size
      let profit_pct := (exit_price - position) / position * 100
      let capital₂ := s₁.capital + trade_profit
      let rec₀ : BTrade :=
        { entry_index := s.entry_index, exit_index := i, entry_price := position,
          exit_price := exit_price, position_size := s.position_size,
          stop_loss := s.trailing_stop, take_profit := s.take_profit,
          exit_reason := exit_reason, profit := trade_profit, profit_pct := profit_pct,
          capital_after := capital₂ }
      { s₁ with capital := capital₂, total_profit := s₁.total_profit + trade_profit,
                wins := if trade_profit > 0 then s₁.wins + 1 else s₁.wins,
                losses := if trade_profit > 0 then s₁.losses else s₁.losses + 1,
                position := none, trailing_stop := 0, take_profit := 0,
                highest_price := 0, entry_index := none,
                trade_log := s₁.trade_log ++ [rec₀] }

/-- The iteration range of backtest.py 204: indices 20 to len-1, each with
its bar and the previous bar. -/
def backtest_inputs (df : List BBar) : List (ℕ × BBar × BBar) :=
  ((df.drop 19).zip (df.drop 20)).enum.map (fun p => (p.1 + 20, p.2.2, p.2.1))

/-- The initial loop state of backtest.py 188-198. -/
def backtest_init_state (capital : ℚ) : BState :=
  { capital := capital, position := none, position_size := 0, trailing_stop := 0,
    take_profit := 0, trades := 0, wins := 0, losses := 0, total_profit := 0,
    highest_price := 0, entry_index := none, trade_log := [] }

/-- The full bar loop of run_single_symbol as a function of the capital, the
risk fraction and the bar sequence. -/
def backtest_run_single (capital risk_per_trade : ℚ) (df : List BBar) : BState :=
  (backtest_inputs df).foldl (backtest_step risk_per_trade) (backtest_init_state capital)

/-- The Backtester object state (backtest.py 9-15). -/
structure Backtester where
  initial_capital : ℚ
  capital : ℚ
  risk_per_trade : ℚ
  all_trades : List BTrade
deriving DecidableEq

/-- Backtester.run_single_symbol (backtest.py 175-337) given the fetched
data frame: the insufficient-data guard of line 182, then the bar loop; the
Backtester keeps the final capital and appends the recorded trades, which are
also returned. -/
def Backtester.run_single_symbol (bt : Backtester) (df : List BBar) :
    Backtester × List BTrade :=
  if df.length < 20 then (bt, [])
  else
    let final := backtest_run_single bt.capital bt.risk_per_trade df
    ({ bt with capital := final.capital,
               all_trades := bt.all_trades ++ final.trade_log },
     final.trade_log)

/-! ### EntryStrategy.find_entry_signal (entry.py 80-109) -/

/-- One indicator row as read by EntryStrategy (columns close, high, low,
MA_50, MA_200, RSI, MACD, MACD_Signal, ATR). -/
structure SRow where
  close : ℚ
  high : ℚ
  low : ℚ
  ma50 : ℚ
  ma200 : ℚ
  rsi : ℚ
  macd : ℚ
  macd_sig : ℚ
  atr : ℚ
deriving DecidableEq

/-- Maximum of a pandas series (nonempty in all source uses). -/
def series_max : List ℚ → ℚ
  | [] => 0
  | x :: xs => xs.foldl max x

/-- Minimum of a pandas series (nonempty in all source uses). -/
def series_min : List ℚ → ℚ
  | [] => 0
  | x :: xs => xs.foldl min x

/-- The FIB_LEVELS values of config.py 31-36. -/
def fib_levels : List ℚ := [0.382, 0.618, 1, 1.618]

/-- EntryStrategy.check_pullback (entry.py 19-38): proximity of the close to
MA_50, or a 20-bar retracement near a Fibonacci level. -/
def check_pullback (df : List SRow) : Bool :=
  match df.getLast? with
  | none => false
  | some latest =>
    let ma_50 := latest.ma50
    let close := latest.close
    let ma_proximity := decide (|close - ma_50| / ma_50 ≤ 0.02)
    let high_point := series_max (last_n 20 (df.map (·.high)))
    let low_point := series_min (last_n 20 (df.map (·.low)))
    let retracement := (high_point - close) / (high_point - low_point)
    let fib_proximity := fib_levels.any (fun f => decide (|retracement - f| ≤ 0.02))
    ma_proximity || fib_proximity

/-- EntryStrategy.check_confirmation (entry.py 40-54): RSI inside the
oversold-overbought band and a bullish MACD crossover. -/
def check_confirmation (latest prev : SRow) (rsi_oversold rsi_overbought : ℚ) : Bool :=
  decide (rsi_oversold ≤ latest.rsi ∧ latest.rsi ≤ rsi_overbought) &&
    decide (prev.macd < prev.macd_sig ∧ latest.macd > latest.macd_sig)

/-- EntryStrategy.calculate_stop_loss (entry.py 56-61): the larger of the
20-bar swing low and close minus twice the ATR. -/
def calculate_stop_loss (df : List SRow) : ℚ :=
  match df.getLast? with
  | none => 0
  | some latest =>
    let swing_low := series_min (last_n 20 (df.map (·.low)))
    let atr_stop := latest.close - latest.atr * 2
    max swing_low atr_stop

/-- The EntrySignal dataclass of entry.py. -/
structure EntryTradeRec where
  entry_price : ℚ
  stop_loss : ℚ
  take_profit : ℚ
  position_size : ℤ
deriving DecidableEq

/-- EntryStrategy.find_entry_signal (entry.py 80-109): requires 200 bars, the
uptrend close above MA_50 above MA_200, AND check_pullback AND
check_confirmation; the stop comes from calculate_stop_loss, the target from
the 1:2 risk-reward rule, the size from int(capital * risk / risk_per_share). -/
def find_entry_signal (df : List SRow) (available_capital risk_per_trade
    rsi_oversold rsi_overbought : ℚ) : Option EntryTradeRec :=
  if df.length < 200 then none
  else
    match df.getLast?, df.dropLast.getLast? with
    | some latest, some prev =>
      if ¬ (latest.close > latest.ma50 ∧ latest.ma50 > latest.ma200) then none
      else if ¬ (check_pullback df = true ∧
          check_confirmation latest prev rsi_oversold rsi_overbought = true) then none
      else
        let entry_price := latest.close
        let stop_loss := calculate_stop_loss df
        let take_profit := entry_price + (entry_price - stop_loss) * 2
        let risk_amount := available_capital * risk_per_trade
        let risk_per_share := entry_price - stop_loss
        some { entry_price := entry_price, stop_loss := stop_loss,
               take_profit := take_profit,
               position_size := pyInt (risk_amount / risk_per_share) }
    | _, _ => none

/-! ### ForwardTester.get_latest_data and check_for_signals (forward_test.py) -/

/-- One raw OHLCV bar as downloaded (forward_test.py 19). -/
structure OHLC where
  open_p : ℚ
  high : ℚ
  low : ℚ
  close : ℚ
  volume : ℚ
deriving DecidableEq

/-- The data frame built by get_latest_data: raw bars plus the RSI column;
MA_10, MA_20 and Price_Change are recomputed from the raw bars where read. -/
structure FFrame where
  raw : List OHLC
  rsi_col : List ℚ
deriving DecidableEq

/-- ForwardTester defines no calculate_rsi method (forward_test.py has only
get_latest_data, check_for_signals and print_daily_report), so the attribute
lookup self.calculate_rsi at line 27 raises AttributeError; the absent
attribute is embedded as none. -/
def forward_calculate_rsi : Option (List ℚ → ℕ → List ℚ) := none

/-- ForwardTester defines no calculate_position_size method either, so the
call at forward_test.py 103 would raise AttributeError (uncaught there). -/
def forward_calculate_position_size : Option (ℚ → ℚ → ℚ) := none

/-- ForwardTester.get_latest_data (forward_test.py 13-33): a failed or empty
download gives None; otherwise the indicator columns are added and line 27
evaluates self.calculate_rsi, whose AttributeError is caught by the
except-block of lines 31-33, returning None. -/
def forward_get_latest_data (fetched : Option (List OHLC)) : Option FFrame :=
  match fetched with
  | none => none
  | some raw =>
    match forward_calculate_rsi with
    | some f => some ⟨raw, f (raw.map (·.close)) 14⟩
    | none => none

/-- Percent change of the last close over the previous close. -/
def pct_change_last (xs : List ℚ) : Option ℚ :=
  match xs.getLast?, xs.dropLast.getLast? with
  | some c, some p => some ((c - p) / p)
  | _, _ => none

/-- The last data-frame row as read by check_for_signals (forward_test.py 47):
raw scalars of the last bar plus its MA_10, MA_20, Price_Change and RSI values
(defined under the len-20 guard; the defaults are never consulted). -/
def forward_latest_row (fr : FFrame) : FRow :=
  let closes := fr.raw.map (·.close)
  { high := ((fr.raw.getLast?).map (·.high)).getD 0,
    low := ((fr.raw.getLast?).map (·.low)).getD 0,
    close := ((fr.raw.getLast?).map (·.close)).getD 0,
    ma10 := (rolling_mean_last 10 closes).getD 0,
    ma20 := (rolling_mean_last 20 closes).getD 0,
    price_change := (pct_change_last closes).getD 0,
    rsi := (fr.rsi_col.getLast?).getD 0 }

/-- An entry signal dictionary (forward_test.py 106-111). -/
structure FEntryRec where
  symbol : String
  entry_price : ℚ
  stop_loss : ℚ
  position_size : ℚ
deriving DecidableEq

/-- An exit signal dictionary (forward_test.py 55-69). -/
structure FExitDict where
  symbol : String
  exit_type : String
  price : ℚ
  position : FPosition
deriving DecidableEq

/-- The signals dictionary of forward_test.py 37-40. -/
structure FSignals where
  entries : List FEntryRec
  exits : List FExitDict
deriving DecidableEq

/-- In-place mutation of one entry of the open_positions dictionary. -/
def update_position (ps : List (String × FPosition)) (sym : String) (p : FPosition) :
    List (String × FPosition) :=
  ps.map (fun q => if q.1 = sym then (sym, p) else q)

/-- The symbol loop of ForwardTester.check_for_signals (forward_test.py
42-111), threading the signals accumulator and the open-positions dictionary.
A none result models an exception escaping check_for_signals (which happens
only on the dead calculate_position_size path, line 103). -/
def forward_check_symbols (fetch : String → Option (List OHLC)) :
    List String → FSignals → List (String × FPosition) →
    Option (FSignals × List (String × FPosition))
  | [], sigs, poss => some (sigs, poss)
  | sym :: rest, sigs, poss =>
    match forward_get_latest_data (fetch sym) with
    | none => forward_check_symbols fetch rest sigs poss
    | some fr =>
      if fr.raw.length < 20 then forward_check_symbols fetch rest sigs poss
      else
        let latest := forward_latest_row fr
        match poss.lookup sym with
        | some p =>
          match forward_manage_position p latest with
          | (some (FExit.stop_loss pr), _) =>
            forward_check_symbols fetch rest
              { sigs with exits := sigs.exits ++ [⟨sym, "stop_loss", pr, p⟩] } poss
          | (some (FExit.trend_exit pr), _) =>
            forward_check_symbols fetch rest
              { sigs with exits := sigs.exits ++ [⟨sym, "trend_exit", pr, p⟩] } poss
          | (none, p₁) =>
            forward_check_symbols fetch rest sigs (update_position poss sym p₁)
        | none =>
          match forward_entry_candidate latest with
          | some (ep, sl) =>
            match forward_calculate_position_size with
            | none => none
            | some f =>
              let ps := f ep sl
              if ps > 0 then
                forward_check_symbols fetch rest
                  { sigs with entries := sigs.entries ++ [⟨sym, ep, sl, ps⟩] } poss
              else forward_check_symbols fetch rest sigs poss
          | none => forward_check_symbols fetch rest sigs poss

/-- ForwardTester.check_for_signals (forward_test.py 35-113). -/
def forward_check_for_signals (fetch : String → Option (List OHLC))
    (symbols : List String) (open_positions : List (String × FPosition)) :
    Option (FSignals × List (String × FPosition)) :=
  forward_check_symbols fetch symbols ⟨[], []⟩ open_positions

/-! ### Helper lemmas -/

lemma forward_ladder_mono (e s h : ℚ) : s ≤ forward_ladder e s h := by
  simp only [forward_ladder]
  split_ifs <;> simp [le_max_iff]

lemma forward_manage_position_stop_mono (p : FPosition) (latest : FRow) :
    p.trailing_stop ≤ ((forward_manage_position p latest).2).trailing_stop := by
  simp only [forward_manage_position]
  split_ifs <;>
    first
      | exact le_rfl
      | exact forward_ladder_mono _ _ _

lemma forward_manage_run_stop_mono (p : FPosition) (rows : List FRow) :
    p.trailing_stop ≤ (forward_manage_run p rows).trailing_stop := by
  induction rows generalizing p with
  | nil => exact le_rfl
  | cons r t ih =>
      exact le_trans (forward_manage_position_stop_mono p r)
        (ih (forward_manage_position p r).2)

/-! ### Claim C1 -/

/-- Claim C1, counterexample: LiveTrader.manage_positions stores no stop at
all; it recomputes one from the current close on every cycle. With entry 100,
a cycle at close 111 yields stop 107.67, and the next cycle at close 105
yields stop 101.85: the stop in effect for the open long position decreases
across bars, refuting the claim that the per-bar processing of
LiveTrader.manage_positions never lowers the stop. -/
theorem live_stop_decreases :
    live_manage_stop 100 111 = 10767 / 100 ∧
    live_manage_stop 100 105 = 10185 / 100 ∧
    live_manage_stop 100 105 < live_manage_stop 100 111 := by
  norm_num [live_manage_stop]

/-- Claim C1 (amended): the stored stop of a ForwardTester position is
non-decreasing: each per-bar processing step of check_for_signals yields a
stop at least the previous one, and so does any sequence of such steps while
the position stays open. LiveTrader.manage_positions instead recomputes the
stop from the current close each cycle, and the recomputed stop can be lower
than the stop of the previous cycle (107.67 at close 111, then 101.85 at
close 105, entry 100). -/
theorem forward_stop_monotone :
    (∀ (p : FPosition) (latest : FRow),
        p.trailing_stop ≤ ((forward_manage_position p latest).2).trailing_stop) ∧
    (∀ (p : FPosition) (rows : List FRow),
        p.trailing_stop ≤ (forward_manage_run p rows).trailing_stop) ∧
    live_manage_stop 100 105 < live_manage_stop 100 111 := by
  refine ⟨forward_manage_position_stop_mono, forward_manage_run_stop_mono, ?_⟩
  norm_num [live_manage_stop]

/-! ### Claim C5 -/

/-- Claim C5, counterexample: the general part of the claim puts the 97 and
95 percent ladder candidates at highest_price_seen in both implementations.
In LiveTrader.manage_positions the candidates come from the current close
and no highest price is stored: with entry 100, after the high of 111 has
been seen, a cycle at close 105 computes stop 101.85 = 0.97 * 105, not the
claimed 107.67 = 0.97 * 111. -/
theorem live_ladder_uses_current_close :
    live_manage_stop 100 105 = 10185 / 100 ∧ (10185 : ℚ) / 100 ≠ 10767 / 100 := by
  norm_num [live_manage_stop]

/-- Claim C5 (amended): in ForwardTester the ladder acts only through
stop = max(stop, candidate) with candidates from the updated highest price,
and the concrete scenario holds there: entry 100, stop 98, highest price
risen to 111 gives exactly 107.67, both for the bare ladder and for the full
per-bar update. In LiveTrader the same ladder-with-max shape recomputes from
the current close: a cycle at close 111 also gives 107.67, but a later cycle
at close 105 gives 101.85, because no highest-seen price enters the
candidates. -/
theorem forward_ladder_scenario :
    forward_ladder 100 98 111 = 10767 / 100 ∧
    (∀ (e s h : ℚ), s ≤ forward_ladder e s h) ∧
    (forward_manage_position ⟨100, 98, 100, 10⟩ ⟨111, 100, 110, 105, 90, 0, 50⟩).2.trailing_stop
      = 10767 / 100 ∧
    live_manage_stop 100 111 = 10767 / 100 ∧
    live_manage_stop 100 105 = 10185 / 100 := by
  refine ⟨by norm_num [forward_ladder], forward_ladder_mono, ?_, ?_, ?_⟩ <;>
    norm_num [forward_manage_position, forward_ladder, live_manage_stop]

/-! ### Claims C2 and C3 -/

lemma live_size_preCheck_le_alloc (e b r p s : ℚ) :
    live_size_preCheck e b r p s ≤ pyInt (e * 0.1 / p) := by
  simp only [live_size_preCheck]
  exact min_le_right _ _

lemma pyInt_mul_le (q p : ℚ) (hq : 0 ≤ q) (hp : 0 < p) : (pyInt (q / p) : ℚ) * p ≤ q := by
  have h0 : (0 : ℚ) ≤ q / p := div_nonneg hq hp.le
  simp only [pyInt]
  rw [if_pos h0]
  calc ((⌊q / p⌋ : ℤ) : ℚ) * p ≤ q / p * p :=
        mul_le_mul_of_nonneg_right (Int.floor_le _) hp.le
    _ = q := div_mul_cancel₀ q hp.ne'

lemma cap_chain (c e raw : ℚ) (hc : 0 < c) (he : 0 < e) :
    (if (if raw * e > c * 0.1 then c * 0.1 / e else raw) * e > c
     then c * 0.95 / e else (if raw * e > c * 0.1 then c * 0.1 / e else raw)) * e ≤
      c * 0.1 := by
  have hcan1 : c * 0.1 / e * e = c * 0.1 := div_mul_cancel₀ _ he.ne'
  have hcan2 : c * 0.95 / e * e = c * 0.95 := div_mul_cancel₀ _ he.ne'
  split_ifs with h1 h2 h3
  · rw [hcan1] at h2
    rw [hcan2]
    linarith
  · rw [hcan1]
  · rw [hcan2]
    push_neg at h1
    linarith
  · push_neg at h1
    linarith

lemma backtest_preMin_le (c r e s : ℚ) (hc : 0 < c) (he : 0 < e) :
    backtest_size_preMin c r e s * e ≤ c * 0.1 := by
  simpa only [backtest_size_preMin] using
    cap_chain c e (c * r / (if |e - s| ≤ 0 then e * 0.01 else |e - s|)) hc he

/-- Claim C2, counterexample: the Backtester floor of 0.01 shares breaks both
sizing bounds: with capital 0.5, entry 100, stop 98 (risk per unit 2) the
returned size is 0.01, worth 1.00, which exceeds both the capital 0.5 and
0.1 times the capital. RiskManager.can_open_position has no capital cap at
all: with portfolio 1000, risk fraction 0.02, risk per share 0.01 and price
10 it allows 2000 shares worth 20000, twenty times the portfolio value. -/
theorem sizing_caps_counterexample :
    backtest_calculate_position_size (1 / 2) (2 / 100) 100 98 * 100 > 1 / 2 ∧
    backtest_calculate_position_size (1 / 2) (2 / 100) 100 98 * 100 > (1 / 2) * 0.1 ∧
    risk_can_open_position 0 1000 (1 / 10) (2 / 100) (1 / 100) 10 = some 2000 ∧
    (2000 : ℚ) * 10 > 1000 := by
  norm_num [backtest_calculate_position_size, backtest_size_preMin,
    risk_can_open_position, pyInt]

/-- Claim C2 (amended): LiveTrader.calculate_position_size obeys both bounds
with capital C = equity and max fraction 0.1. Backtester.calculate_position_size
obeys them whenever the size before the 0.01-share minimum floor is not below
that floor; when the floor applies, and in RiskManager.can_open_position
(which caps only by the risk amount), the bounds can fail. -/
theorem sizing_respects_caps :
    (∀ (equity buying_power r price stop : ℚ), 0 < equity → 0 < price →
        (live_calculate_position_size equity buying_power r price stop : ℚ) * price ≤
            equity * 0.1 ∧
        (live_calculate_position_size equity buying_power r price stop : ℚ) * price ≤
            equity) ∧
    (∀ (capital r entry stop : ℚ), 0 < capital → 0 < entry →
        ¬ backtest_size_preMin capital r entry stop < 0.01 →
        backtest_calculate_position_size capital r entry stop * entry ≤ capital * 0.1 ∧
        backtest_calculate_position_size capital r entry stop * entry ≤ capital) := by
  constructor
  · intro e b r p s he hp
    have hq : (0 : ℚ) ≤ e * 0.1 := by nlinarith
    have key : (live_calculate_position_size e b r p s : ℚ) * p ≤ e * 0.1 := by
      rcases le_or_lt (live_size_preCheck e b r p s) 0 with h0 | h0
      · have hz : live_calculate_position_size e b r p s = 0 := by
          simp only [live_calculate_position_size]
          rw [if_pos h0]
        rw [hz]
        push_cast
        nlinarith
      · have hres : live_calculate_position_size e b r p s = live_size_preCheck e b r p s := by
          simp only [live_calculate_position_size]
          rw [if_neg (not_le.mpr h0)]
        rw [hres]
        calc ((live_size_preCheck e b r p s : ℤ) : ℚ) * p
            ≤ ((pyInt (e * 0.1 / p) : ℤ) : ℚ) * p := by
              have := live_size_preCheck_le_alloc e b r p s
              exact mul_le_mul_of_nonneg_right (by exact_mod_cast this) hp.le
          _ ≤ e * 0.1 := pyInt_mul_le _ _ hq hp
    exact ⟨key, key.trans (by nlinarith)⟩
  · intro c r e s hc he hfloor
    have hpre := backtest_preMin_le c r e s hc he
    have hres : backtest_calculate_position_size c r e s = backtest_size_preMin c r e s := by
      simp only [backtest_calculate_position_size]
      rw [if_neg hfloor]
    rw [hres]
    exact ⟨hpre, hpre.trans (by nlinarith)⟩

/-- Claim C2, witness: both amended bounds at equity 1000, buying power 500,
risk 0.02, entry 100, stop 98, and capital 1000 for the Backtester. -/
theorem sizing_respects_caps_witness :
    ((live_calculate_position_size 1000 500 (2 / 100) 100 98 : ℚ) * 100 ≤ 1000 * 0.1 ∧
     (live_calculate_position_size 1000 500 (2 / 100) 100 98 : ℚ) * 100 ≤ 1000) ∧
    (backtest_calculate_position_size 1000 (2 / 100) 100 98 * 100 ≤ 1000 * 0.1 ∧
     backtest_calculate_position_size 1000 (2 / 100) 100 98 * 100 ≤ 1000) :=
  ⟨sizing_respects_caps.1 1000 500 (2 / 100) 100 98 (by norm_num) (by norm_num),
   sizing_respects_caps.2 1000 (2 / 100) 100 98 (by norm_num) (by norm_num)
     (by norm_num [backtest_size_preMin])⟩

/-- Claim C3, counterexample: with capital 0.5, entry 100, stop 98, the
capped size 0.0005 is below the workable minimum of 0.01 shares, yet
Backtester.calculate_position_size returns the positive floor value 0.01
instead of the claimed zero. -/
theorem backtest_floor_not_zero :
    backtest_size_preMin (1 / 2) (2 / 100) 100 98 < 0.01 ∧
    backtest_calculate_position_size (1 / 2) (2 / 100) 100 98 = 0.01 ∧
    (0.01 : ℚ) ≠ 0 := by
  norm_num [backtest_size_preMin, backtest_calculate_position_size]

/-- Claim C3 (amended): LiveTrader returns exactly zero when the capped share
count is not positive, and execute_trade refuses a non-positive quantity, so
no position is opened from a zero size; Backtester.calculate_position_size
instead replaces any capped size below 0.01 shares with the positive floor
0.01. -/
theorem minimum_size_handling :
    (∀ (equity buying_power r price stop : ℚ),
        live_size_preCheck equity buying_power r price stop ≤ 0 →
        live_calculate_position_size equity buying_power r price stop = 0) ∧
    (∀ qty : ℤ, qty ≤ 0 → live_execute_trade_submits qty = false) ∧
    (∀ (capital r entry stop : ℚ),
        backtest_size_preMin capital r entry stop < 0.01 →
        backtest_calculate_position_size capital r entry stop = 0.01) := by
  refine ⟨?_, ?_, ?_⟩
  · intro e b r p s h
    simp only [live_calculate_position_size]
    rw [if_pos h]
  · intro q h
    simp only [live_execute_trade_submits]
    rw [if_pos h]
  · intro c r e s h
    simp only [backtest_calculate_position_size]
    rw [if_pos h]

/-- Claim C3, witness: a degenerate live sizing input returning zero, the
zero-quantity order rejection, and the Backtester floor case. -/
theorem minimum_size_handling_witness :
    live_calculate_position_size 0 0 0 1 1 = 0 ∧
    live_execute_trade_submits 0 = false ∧
    backtest_calculate_position_size (1 / 2) (2 / 100) 100 98 = 0.01 :=
  ⟨minimum_size_handling.1 0 0 0 1 1 (by norm_num [live_size_preCheck, pyInt]),
   minimum_size_handling.2.1 0 le_rfl,
   minimum_size_handling.2.2 (1 / 2) (2 / 100) 100 98 (by norm_num [backtest_size_preMin])⟩

/-! ### Claim C8 -/

/-- Claim C8, counterexample: at the claimed input (entry 50, stop 49, bar
with close 48, low 48.5, close below MA_20 = 49) the low 48.5 is below the
stop 49, so ForwardTester.check_for_signals fires the stop-loss exit at the
stop price 49 - not the claimed trend exit at the close 48. -/
theorem stop_beats_trend_at_claimed_input :
    (forward_manage_position ⟨50, 49, 50, 10⟩ ⟨48.9, 48.5, 48, 48, 49, 0, 50⟩).1 =
      some (FExit.stop_loss 49) ∧
    FExit.stop_loss 49 ≠ FExit.trend_exit 48 := by
  constructor
  · norm_num [forward_manage_position]
  · intro h
    exact FExit.noConfusion h

/-- Claim C8 (amended): with entry 50 and stop 49, a bar whose low 48.5 is
at or below the stop exits by stop-loss at 49; the trend exit at the close
48 requires the low to stay above the stop - with low 49.5 and close 48
below MA_20 = 49 the decision is the trend exit filling at 48. -/
theorem trend_exit_fills_at_close :
    (forward_manage_position ⟨50, 49, 50, 10⟩ ⟨48.9, 48.5, 48, 48, 49, 0, 50⟩).1 =
      some (FExit.stop_loss 49) ∧
    (forward_manage_position ⟨50, 49, 50, 10⟩ ⟨49.6, 49.5, 48, 48, 49, 0, 50⟩).1 =
      some (FExit.trend_exit 48) := by
  constructor <;> norm_num [forward_manage_position]

/-! ### Claim C4 -/

/-- The state used to witness the stop-loss exit claim: an open position
entered at 100 with 10 shares, stop 98, take profit 104. -/
def c4_state : BState :=
  ⟨1000, some 100, 10, 98, 104, 1, 0, 0, 0, 100, some 20, []⟩

/-- A bar whose low 95 is strictly below the stop 98. -/
def c4_bar : BBar := ⟨97, 99, 95, some 90, some 80, some 50⟩

/-- The previous bar of the witness scenario. -/
def c4_prev : BBar := ⟨96, 97, 95, some 90, some 80, some 50⟩

/-- Claim C4: when the bar low is at or below the current stop, the
stop-loss exit fires with priority over every other exit rule (nothing is
assumed about the take-profit or technical conditions) and fills exactly at
the stored stop price: ExitStrategy.check_exit_signal returns the stop_loss
signal at the stop price, and the Backtester loop books the trade at
exit price = trailing_stop with profit (stop - entry) * size added to the
capital - never at the bar low. -/
theorem stop_exit_fills_at_stop :
    (∀ (latest prev : ERow) (stop_loss take_profit rsi_overbought : ℚ),
        latest.low ≤ stop_loss →
        check_exit_signal latest prev stop_loss take_profit rsi_overbought =
          some ⟨"stop_loss", stop_loss⟩) ∧
    (∀ (r : ℚ) (s : BState) (i : ℕ) (bar prevBar : BBar) (entry : ℚ),
        s.position = some entry → bar.low ≤ s.trailing_stop →
        (backtest_step r s (i, bar, prevBar)).capital =
            s.capital + (s.trailing_stop - entry) * s.position_size ∧
        (backtest_step r s (i, bar, prevBar)).trade_log = s.trade_log ++
          [{ entry_index := s.entry_index, exit_index := i, entry_price := entry,
             exit_price := s.trailing_stop, position_size := s.position_size,
             stop_loss := s.trailing_stop, take_profit := s.take_profit,
             exit_reason := "Stop Loss",
             profit := (s.trailing_stop - entry) * s.position_size,
             profit_pct := (s.trailing_stop - entry) / entry * 100,
             capital_after := s.capital + (s.trailing_stop - entry) * s.position_size }]) := by
  constructor
  · intro latest prev stop_loss take_profit rsi_overbought h
    simp only [check_exit_signal]
    rw [if_pos h]
  · intro r s i bar prevBar entry hpos hlow
    simp only [backtest_step, hpos]
    rw [if_pos hlow]
    split_ifs <;> exact ⟨rfl, rfl⟩

/-- Claim C4, witness: the stop 98 with bar low 95 (strictly below the stop)
fills at 98, and the booked profit is (98 - 100) * 10. -/
theorem stop_exit_fills_at_stop_witness :
    check_exit_signal ⟨95, 99, 97, 0, 0, 50⟩ ⟨95, 99, 97, 0, 0, 50⟩ 98 104 60 =
      some ⟨"stop_loss", 98⟩ ∧
    ((backtest_step (2 / 100) c4_state (21, c4_bar, c4_prev)).capital =
        c4_state.capital + (c4_state.trailing_stop - 100) * c4_state.position_size ∧
     (backtest_step (2 / 100) c4_state (21, c4_bar, c4_prev)).trade_log =
       c4_state.trade_log ++
        [{ entry_index := c4_state.entry_index, exit_index := 21, entry_price := 100,
           exit_price := c4_state.trailing_stop, position_size := c4_state.position_size,
           stop_loss := c4_state.trailing_stop, take_profit := c4_state.take_profit,
           exit_reason := "Stop Loss",
           profit := (c4_state.trailing_stop - 100) * c4_state.position_size,
           profit_pct := (c4_state.trailing_stop - 100) / 100 * 100,
           capital_after := c4_state.capital +
             (c4_state.trailing_stop - 100) * c4_state.position_size }]) :=
  ⟨stop_exit_fills_at_stop.1 ⟨95, 99, 97, 0, 0, 50⟩ ⟨95, 99, 97, 0, 0, 50⟩ 98 104 60
      (by norm_num),
   stop_exit_fills_at_stop.2 (2 / 100) c4_state 21 c4_bar c4_prev 100 rfl
      (by norm_num [c4_bar, c4_state])⟩

/-! ### Claim C6 -/

/-- Claim C6, counterexample: on the same latest-bar data (close 100, MA_10
90, MA_20 110, RSI 50, price change 1) ForwardTester emits the entry
candidate (100, 98) by its 2-of-3 vote, while LiveTrader.check_entry_conditions
returns no entry even though two of its own three conditions (the RSI band
and the positive price change) hold: it combines its conditions with AND,
refuting the claim that every cited implementation emits exactly on a
2-of-3 vote. -/
theorem entry_vote_counterexample :
    forward_entry_candidate ⟨101, 99, 100, 90, 110, 1, 50⟩ = some (100, 98) ∧
    live_check_entry_conditions 100 90 110 50 1 = false ∧
    ((40 : ℚ) < 50 ∧ (50 : ℚ) < 70) ∧ ((1 : ℚ) > 0.3) := by
  refine ⟨?_, ?_, by norm_num, by norm_num⟩
  · norm_num [forward_entry_candidate, forward_conditions_met, forward_trend_condition,
      forward_pullback_condition, forward_momentum_condition]
  · norm_num [live_check_entry_conditions]

/-- Claim C6 (amended): only ForwardTester implements the 2-of-3 vote: its
candidate, with entry price the latest close and stop 0.98 times the close,
is emitted exactly when at least two of its three conditions hold.
LiveTrader.check_entry_conditions requires all three of its conditions to
hold (a strict AND), and EntryStrategy.find_entry_signal likewise requires
every one of its conditions: in particular no signal exists whenever its
pullback check fails. -/
theorem entry_rules_characterization :
    (∀ l : FRow, forward_entry_candidate l = some (l.close, l.close * 0.98) ↔
        2 ≤ forward_conditions_met l) ∧
    (∀ (price ma10 ma20 rsi pc : ℚ),
        live_check_entry_conditions price ma10 ma20 rsi pc = true ↔
          ((price > ma10 ∧ ma10 > ma20) ∧ (40 < rsi ∧ rsi < 70) ∧ pc > 0.3)) ∧
    (∀ (df : List SRow) (cap r o b : ℚ), check_pullback df = false →
        find_entry_signal df cap r o b = none) := by
  refine ⟨?_, ?_, ?_⟩
  · intro l
    simp only [forward_entry_candidate]
    split_ifs with h <;> simp [h]
  · intro price ma10 ma20 rsi pc
    simp only [live_check_entry_conditions, Bool.and_eq_true, decide_eq_true_eq]
    tauto
  · intro df cap r o b h
    by_cases hlen : df.length < 200
    · simp [find_entry_signal, hlen]
    · cases hL : df.getLast? with
      | none => simp [find_entry_signal, hlen, hL]
      | some latest =>
        cases hP : df.dropLast.getLast? with
        | none => simp [find_entry_signal, hlen, hL, hP]
        | some prev => simp [find_entry_signal, hlen, hL, hP, h]

/-- Claim C6, witness: an empty frame fails the pullback check and yields no
entry signal. -/
theorem entry_rules_witness :
    check_pullback [] = false ∧ find_entry_signal [] 1000 (2 / 100) 40 60 = none :=
  ⟨rfl, entry_rules_characterization.2.2 [] 1000 (2 / 100) 40 60 rfl⟩

/-! ### Claim C7 -/

lemma rolling_mapped_nonneg (period : ℕ) (xs : List ℚ) (f : ℚ → ℚ)
    (hf : ∀ d, 0 ≤ f d) (g : ℚ)
    (h : rolling_mean_last period (xs.map f) = some g) : 0 ≤ g := by
  simp only [rolling_mean_last] at h
  split_ifs at h
  have hg := Option.some.inj h
  rw [← hg]
  apply div_nonneg _ (by positivity)
  apply List.sum_nonneg
  intro x hx
  have hx₁ : x ∈ xs.map f := List.mem_of_mem_drop hx
  obtain ⟨d, _, rfl⟩ := List.mem_map.mp hx₁
  exact hf d

lemma avg_gain_last_nonneg (prices : List ℚ) (period : ℕ) (g : ℚ)
    (h : avg_gain_last prices period = some g) : 0 ≤ g := by
  refine rolling_mapped_nonneg period (series_diff prices) _ ?_ g h
  intro d
  split_ifs with hd
  · exact hd.le
  · exact le_rfl

lemma avg_loss_last_nonneg (prices : List ℚ) (period : ℕ) (l : ℚ)
    (h : avg_loss_last prices period = some l) : 0 ≤ l := by
  refine rolling_mapped_nonneg period (series_diff prices) _ ?_ l h
  intro d
  split_ifs with hd
  · linarith
  · exact le_rfl

lemma rsi_formula_bounds (rs : ℚ) (h : 0 ≤ rs) :
    0 ≤ 100 - 100 / (1 + rs) ∧ 100 - 100 / (1 + rs) ≤ 100 := by
  have h₁ : (0 : ℚ) < 1 + rs := by linarith
  have h₂ : 0 < 100 / (1 + rs) := by positivity
  have h₃ : 100 / (1 + rs) ≤ 100 := by
    rw [div_le_iff₀ h₁]
    nlinarith
  constructor <;> linarith

/-- Claim C7, counterexample: the cited TechnicalIndicators.add_rsi
substitutes no epsilon for a zero average loss. On strictly rising prices it
returns exactly 100 through the float division gain / 0 = infinity, where an
epsilon denominator would give the value slightly below 100 that
LiveTrader.calculate_rsi produces; and on a finite non-constant series whose
last 14 differences are all zero the division is 0 / 0, so the RSI value is
NaN - an undefined value, not a number in the 0-100 range. -/
theorem add_rsi_no_epsilon :
    ti_add_rsi_last [0, 1, 2, 3, 4, 5, 6, 7, 8, 9, 10, 11, 12, 13, 14] 14 = some 100 ∧
    live_calculate_rsi_last [0, 1, 2, 3, 4, 5, 6, 7, 8, 9, 10, 11, 12, 13, 14] 14 =
      some (100 - 100 / 1000000001) ∧
    (100 - 100 / 1000000001 : ℚ) < 100 ∧
    ti_add_rsi_last [1, 2, 2, 2, 2, 2, 2, 2, 2, 2, 2, 2, 2, 2, 2, 2] 14 = none := by
  refine ⟨?_, ?_, by norm_num, ?_⟩ <;>
    norm_num [ti_add_rsi_last, live_calculate_rsi_last, avg_gain_last, avg_loss_last,
      rolling_mean_last, last_n, series_diff]

/-- Claim C7 (amended): every defined RSI value of both implementations lies
in the closed interval 0 to 100. LiveTrader.calculate_rsi substitutes 1e-9
for a zero average loss, giving a value just below 100 on rising prices;
TechnicalIndicators.add_rsi performs no substitution: a zero average loss
with positive average gain gives exactly 100, and a window whose average
gain and loss are both zero gives an undefined (NaN) value rather than a
number. -/
theorem rsi_bounds :
    (∀ (prices : List ℚ) (period : ℕ) (x : ℚ),
        ti_add_rsi_last prices period = some x → 0 ≤ x ∧ x ≤ 100) ∧
    (∀ (prices : List ℚ) (period : ℕ) (x : ℚ),
        live_calculate_rsi_last prices period = some x → 0 ≤ x ∧ x ≤ 100) ∧
    ti_add_rsi_last [0, 1, 2, 3, 4, 5, 6, 7, 8, 9, 10, 11, 12, 13, 14] 14 = some 100 ∧
    live_calculate_rsi_last [0, 1, 2, 3, 4, 5, 6, 7, 8, 9, 10, 11, 12, 13, 14] 14 =
      some (100 - 100 / 1000000001) := by
  refine ⟨?_, ?_, ?_, ?_⟩
  · intro prices period x h
    cases hG : avg_gain_last prices period with
    | none => simp [ti_add_rsi_last, hG] at h
    | some g =>
      cases hL : avg_loss_last prices period with
      | none => simp [ti_add_rsi_last, hG, hL] at h
      | some l =>
        have hg := avg_gain_last_nonneg prices period g hG
        have hl := avg_loss_last_nonneg prices period l hL
        simp only [ti_add_rsi_last, hG, hL] at h
        split_ifs at h with h₁ h₂
        · have hx := Option.some.inj h
          subst hx
          norm_num
        · have hx := Option.some.inj h
          subst hx
          have hlpos : 0 < l := lt_of_le_of_ne hl (Ne.symm h₁)
          exact rsi_formula_bounds (g / l) (div_nonneg hg hlpos.le)
  · intro prices period x h
    cases hG : avg_gain_last prices period with
    | none => simp [live_calculate_rsi_last, hG] at h
    | some g =>
      cases hL : avg_loss_last prices period with
      | none => simp [live_calculate_rsi_last, hG, hL] at h
      | some l =>
        have hg := avg_gain_last_nonneg prices period g hG
        have hl := avg_loss_last_nonneg prices period l hL
        simp only [live_calculate_rsi_last, hG, hL] at h
        have hx := Option.some.inj h
        subst hx
        by_cases h₁ : l = 0
        · rw [if_pos h₁]
          exact rsi_formula_bounds _ (div_nonneg hg (by norm_num))
        · rw [if_neg h₁]
          have hlpos : 0 < l := lt_of_le_of_ne hl (Ne.symm h₁)
          exact rsi_formula_bounds _ (div_nonneg hg hlpos.le)
  · norm_num [ti_add_rsi_last, avg_gain_last, avg_loss_last, rolling_mean_last,
      last_n, series_diff]
  · norm_num [live_calculate_rsi_last, avg_gain_last, avg_loss_last, rolling_mean_last,
      last_n, series_diff]

/-- Claim C7, witness: the bounds applied to the concrete RSI values of both
implementations on strictly rising prices. -/
theorem rsi_bounds_witness :
    ti_add_rsi_last [0, 1, 2, 3, 4, 5, 6, 7, 8, 9, 10, 11, 12, 13, 14] 14 = some 100 ∧
    (0 ≤ (100 : ℚ) ∧ (100 : ℚ) ≤ 100) ∧
    (0 ≤ (100 - 100 / 1000000001 : ℚ) ∧ (100 - 100 / 1000000001 : ℚ) ≤ 100) :=
  ⟨by norm_num [ti_add_rsi_last, avg_gain_last, avg_loss_last, rolling_mean_last,
      last_n, series_diff],
   rsi_bounds.1 [0, 1, 2, 3, 4, 5, 6, 7, 8, 9, 10, 11, 12, 13, 14] 14 100
     (by norm_num [ti_add_rsi_last, avg_gain_last, avg_loss_last, rolling_mean_last,
        last_n, series_diff]),
   rsi_bounds.2.1 [0, 1, 2, 3, 4, 5, 6, 7, 8, 9, 10, 11, 12, 13, 14] 14
     (100 - 100 / 1000000001)
     (by norm_num [live_calculate_rsi_last, avg_gain_last, avg_loss_last,
        rolling_mean_last, last_n, series_diff])⟩

/-! ### Claim C9 -/

/-- Claim C9: Backtester.run_single_symbol is a pure function of the bar
sequence, the current capital and the risk fraction: two Backtester states
agreeing on capital and risk_per_trade (in particular two freshly initialized
engines with the same configuration, whatever their trade history or initial
capital fields hold) produce the identical trade-record sequence and the
identical final capital on the same bars - two-run determinism. -/
theorem backtest_deterministic (bt₁ bt₂ : Backtester) (df : List BBar)
    (h₁ : bt₁.capital = bt₂.capital) (h₂ : bt₁.risk_per_trade = bt₂.risk_per_trade) :
    (bt₁.run_single_symbol df).2 = (bt₂.run_single_symbol df).2 ∧
    (bt₁.run_single_symbol df).1.capital = (bt₂.run_single_symbol df).1.capital := by
  simp only [Backtester.run_single_symbol]
  split_ifs with hlen
  · exact ⟨rfl, h₁⟩
  · rw [h₁, h₂]
    exact ⟨rfl, rfl⟩

/-- A nonempty prior trade log, to differentiate the two engine states of
the determinism witness. -/
def sample_trade : BTrade := ⟨none, 0, 0, 0, 0, 0, 0, "none", 0, 0, 0⟩

/-- Claim C9, witness: two engines with equal capital 1000 and risk 0.02 but
different initial_capital and all_trades fields give identical outputs on a
concrete bar list. -/
theorem backtest_deterministic_witness :
    ((⟨1000, 1000, 2 / 100, []⟩ : Backtester).run_single_symbol []).2 =
      ((⟨500, 1000, 2 / 100, [sample_trade]⟩ : Backtester).run_single_symbol []).2 ∧
    ((⟨1000, 1000, 2 / 100, []⟩ : Backtester).run_single_symbol []).1.capital =
      ((⟨500, 1000, 2 / 100, [sample_trade]⟩ : Backtester).run_single_symbol []).1.capital :=
  backtest_deterministic ⟨1000, 1000, 2 / 100, []⟩ ⟨500, 1000, 2 / 100, [sample_trade]⟩
    [] rfl rfl

/-! ### Claim C10 -/

lemma forward_get_latest_data_none (fetched : Option (List OHLC)) :
    forward_get_latest_data fetched = none := by
  cases fetched <;> rfl

lemma forward_check_symbols_inert (fetch : String → Option (List OHLC)) :
    ∀ (syms : List String) (sigs : FSignals) (poss : List (String × FPosition)),
      forward_check_symbols fetch syms sigs poss = some (sigs, poss) := by
  intro syms
  induction syms with
  | nil => intro sigs poss; rfl
  | cons sym rest ih =>
      intro sigs poss
      simp only [forward_check_symbols, forward_get_latest_data_none]
      exact ih sigs poss

/-- Claim C10: ForwardTester defines neither calculate_rsi nor
calculate_position_size, so get_latest_data always catches the AttributeError
raised at forward_test.py 27 and returns None; every symbol is therefore
skipped before any entry or exit logic runs, and check_for_signals returns
empty entries and exits with the open positions untouched, for every symbol
list and every fetched market data. -/
theorem forward_signals_always_empty (fetch : String → Option (List OHLC))
    (symbols : List String) (open_positions : List (String × FPosition)) :
    forward_check_for_signals fetch symbols open_positions =
      some (⟨[], []⟩, open_positions) :=
  forward_check_symbols_inert fetch symbols ⟨[], []⟩ open_positions
